import Mathlib

/-!
# Verification of the llmchat-web synchronous/asynchronous bridging layer

Shallow embedding, in Lean 4, of the bridge code of the `llmchat-web`
repository:

* `llmchat_web/app.py`:
  - `initialize_llmcore_async` and the module-load initialization guard
    (the Core-Library-Handle state machine);
  - `async_to_sync_in_flask` (the coroutine-to-synchronous wrapper);
  - `get_context_usage_info`.
* `llmchat_web/routes.py`:
  - `run_async_generator_synchronously` (the async-generator-to-sync bridge);
  - `_stream_chat_responses_route_helper` (legacy SSE stream helper).
* `llmchat_web/routes/chat_routes.py`:
  - `_stream_chat_responses_route_helper` (current SSE stream helper);
  - the `api_chat_route` service-unavailable guard.
* `llmchat_web/routes/core_routes.py`: the `api_status` status/error fields.

Python coroutines and async generators are embedded by their observable
behaviour: a coroutine is the `Except` outcome it produces when driven, an
async generator is the list of items it yields followed by its terminal
event (normal exhaustion, i.e. `StopAsyncIteration`, or a raised exception).
Exceptions are embedded as a class name, a message (Python's `str(e)`), and
a flag recording whether the class belongs to the `LLMCoreError` family
(the tuple `(ProviderError, ContextLengthError, SessionNotFoundError,
LLMCoreError)` caught by the stream helpers; the subclasses named in the
source all belong to it).
-/

set_option autoImplicit false

namespace LlmchatWeb

/-- A raised Python exception: class name, message (`str(e)`), and whether
the class is in the `LLMCoreError` family (caught by the dedicated
`except (ProviderError, ContextLengthError, SessionNotFoundError,
LLMCoreError)` clauses of the stream helpers). -/
structure PyExn where
  cls : String
  msg : String
  llmcoreFamily : Bool
deriving DecidableEq, Repr

/-- The `RuntimeError` asyncio raises when `loop.run_until_complete` is
invoked on an event loop that is already running on the calling thread
(CPython `BaseEventLoop._check_running`). -/
def eventLoopAlreadyRunningExn : PyExn :=
  { cls := "RuntimeError", msg := "This event loop is already running", llmcoreFamily := false }

/-- Python truthiness of an `Optional[str]`: `None` and the empty string are
falsy, every other string is truthy. -/
def isTruthyOpt : Option String → Bool
  | none => false
  | some s => !s.isEmpty

/-! ## Core-Library Handle (`llmchat_web/app.py`)

The process-wide globals `llmcore_instance` / `llmcore_init_error`.
The external library instance is opaque; we represent it by a `Nat` tag. -/

/-- The pair of module globals `llmcore_instance` and `llmcore_init_error`
of `llmchat_web/app.py`. -/
structure CoreState where
  llmcore_instance : Option Nat
  llmcore_init_error : Option String
deriving DecidableEq, Repr

/-- The error message recorded by `initialize_llmcore_async` for a raised
exception, following its three `except` clauses in order
(`LLMCoreConfigError`, then `LLMCoreError`, then `Exception`). -/
def initErrorMessageFor (e : PyExn) : String :=
  if e.cls = "ConfigError" then
    "LLMCore Configuration Error: " ++ e.msg ++ ". LLMCore functionality will be unavailable."
  else if e.llmcoreFamily then
    "LLMCore Initialization Error: " ++ e.msg ++ ". LLMCore functionality will be unavailable."
  else
    "Unexpected error during LLMCore initialization: " ++ e.msg ++ ". LLMCore functionality will be unavailable."

/-- Embedding of `initialize_llmcore_async` (`app.py` lines 115-154).
`createResult` is the outcome of the external `await LLMCore.create()` call,
should it be made.  Returns the updated globals and a flag recording whether
`LLMCore.create` was invoked.

Source shape: the function returns immediately when `llmcore_instance` is
already set; otherwise it awaits `LLMCore.create()`, on success storing the
instance and clearing the error, on any exception storing `None` and the
formatted error message. -/
def initialize_llmcore_async (st : CoreState) (createResult : Except PyExn Nat) :
    CoreState × Bool :=
  if st.llmcore_instance.isSome then
    (st, false)
  else
    match createResult with
    | .ok inst => ({ llmcore_instance := some inst, llmcore_init_error := none }, true)
    | .error e => ({ llmcore_instance := none, llmcore_init_error := some (initErrorMessageFor e) }, true)

/-- Embedding of the module-load initialization guard (`app.py` lines
156-200): `initialize_llmcore_async` is invoked (via `asyncio.run`) only
under the check `llmcore_instance is None and llmcore_init_error is None`. -/
def moduleLoadInitGuard (st : CoreState) (createResult : Except PyExn Nat) :
    CoreState × Bool :=
  if st.llmcore_instance.isNone && st.llmcore_init_error.isNone then
    initialize_llmcore_async st createResult
  else
    (st, false)

/-! ## The coroutine wrapper `async_to_sync_in_flask` (`app.py` lines 204-253)

Thread-level asyncio state is embedded explicitly.  Event loops are
identified by `Nat` tags; a fresh loop created by
`asyncio.new_event_loop()` receives the tag `nextId`.  `running` is the
loop currently being driven on the calling thread (what
`asyncio.get_running_loop()` would return), `policy` is the event-loop
policy's current loop for the thread (what `asyncio.set_event_loop`
assigns), and `closed` is the set of loop tags that have been closed. -/

/-- Asyncio-visible state of the calling thread. -/
structure ThreadState where
  running : Option Nat
  policy : Option Nat
  closed : List Nat
  nextId : Nat
deriving DecidableEq, Repr

/-- One teardown action performed by the wrapper's `finally` block on the
event loop with the given tag. -/
inductive TeardownEv where
  | cancelTasks (loopId : Nat)
  | shutdownAsyncgens (loopId : Nat)
  | closeLoop (loopId : Nat)
deriving DecidableEq, Repr

instance {ε α : Type} [DecidableEq ε] [DecidableEq α] : DecidableEq (Except ε α) := fun x y =>
  match x, y with
  | .ok a, .ok b =>
    if h : a = b then .isTrue (by rw [h]) else .isFalse (fun hh => by cases hh; exact h rfl)
  | .error a, .error b =>
    if h : a = b then .isTrue (by rw [h]) else .isFalse (fun hh => by cases hh; exact h rfl)
  | .ok _, .error _ => .isFalse (fun hh => by cases hh)
  | .error _, .ok _ => .isFalse (fun hh => by cases hh)

/-- Result of one call through `async_to_sync_in_flask`: the value returned
or exception raised to the synchronous caller, the thread state afterwards,
whether the wrapped coroutine was actually driven, and the teardown actions
performed. -/
structure WrapperResult (α : Type) where
  result : Except PyExn α
  final : ThreadState
  coroDriven : Bool
  teardown : List TeardownEv
deriving DecidableEq, Repr

/-- CPython semantics of `loop.run_until_complete(coro)`: if the loop is
already running, `RuntimeError("This event loop is already running")` is
raised before the coroutine is scheduled; otherwise the coroutine is driven
to completion and its value is returned or its exception re-raised
unchanged.  The second component records whether the coroutine was driven. -/
def runUntilComplete {α : Type} (loopRunning : Bool) (coro : Except PyExn α) :
    Except PyExn α × Bool :=
  if loopRunning then (.error eventLoopAlreadyRunningExn, false)
  else (coro, true)

/-- Embedding of the body of `async_to_sync_in_flask` (`app.py` lines
204-253).  `coro` is the behaviour of the wrapped coroutine call
`f(*args, **kwargs)` when driven.

Source shape: `asyncio.get_running_loop()` is tried first; on success the
found loop is used with `created_loop = False`, on `RuntimeError` a fresh
loop is created, installed via `asyncio.set_event_loop`, and
`created_loop = True`.  `loop.run_until_complete(f(...))` produces the
result.  The `finally` block, only when `created_loop` holds and the loop is
not closed, cancels residual tasks, awaits `loop.shutdown_asyncgens()`
(failures are caught and logged), closes the loop, and resets the policy's
current loop to `None` when it still is the created loop.  A pre-existing
loop is left untouched. -/
def async_to_sync_in_flask {α : Type} (st : ThreadState) (coro : Except PyExn α) :
    WrapperResult α :=
  match st.running with
  | some _ =>
    -- found an existing running loop; created_loop = False
    let rd := runUntilComplete true coro
    { result := rd.1, final := st, coroDriven := rd.2, teardown := [] }
  | none =>
    let nid := st.nextId
    let stMid : ThreadState :=
      { running := none, policy := some nid, closed := st.closed, nextId := nid + 1 }
    let rd := runUntilComplete false coro
    let stEnd : ThreadState :=
      { stMid with
        closed := nid :: stMid.closed
        policy := if stMid.policy = some nid then none else stMid.policy }
    { result := rd.1
      final := stEnd
      coroDriven := rd.2
      teardown := [.cancelTasks nid, .shutdownAsyncgens nid, .closeLoop nid] }

/-! ## The async-generator bridge `run_async_generator_synchronously`
(`llmchat_web/routes.py` lines 313-346)

An async generator's behaviour is its list of yielded items followed by a
terminal event: `none` for normal exhaustion (`StopAsyncIteration`), or
`some e` for an exception raised while advancing.

The synchronous consumer's pace is a `budget`: `none` means the consumer
drains the bridge to completion, `some k` means it pulls at most `k` items
and then closes the generator (an early `break` under
`stream_with_context`, which throws `GeneratorExit` into the suspended
`yield item`). -/

/-- Observable event of one bridge call: an item yielded to the synchronous
consumer, the `await loop.shutdown_asyncgens()` call of the `finally` block
(which finalizes every async generator the loop iterated), or the final
`loop.close()`. -/
inductive BridgeEv (α : Type) where
  | yielded (a : α)
  | shutdownAsyncgens
  | loopClosed
deriving DecidableEq, Repr

/-- Result of one call of the bridge: the full event trace, and the
exception propagated to the synchronous caller, if any. -/
structure SyncDrainResult (α : Type) where
  events : List (BridgeEv α)
  raised : Option PyExn
deriving DecidableEq, Repr

/-- The `while True` loop of `run_async_generator_synchronously`: each turn
runs `async_gen.__anext__()` to completion.  An item is yielded to the
consumer; `StopAsyncIteration` breaks out of the loop; any other exception
escapes the loop (only `StopAsyncIteration` is caught) and will be
re-raised after the `finally` block.  A consumer with an exhausted budget
closes the generator instead of pulling again, ending the loop with no
exception delivered to it. -/
def syncDrainLoop {α : Type} : List α → Option PyExn → Option Nat → List α × Option PyExn
  | _, _, some 0 => ([], none)
  | [], term, _ => ([], term)
  | a :: rest, term, budget =>
    let r := syncDrainLoop rest term (budget.map fun b => b - 1)
    (a :: r.1, r.2)

/-- Embedding of `run_async_generator_synchronously` (`routes.py` lines
313-346).  `items`/`term` is the behaviour of the async generator produced
by `async_gen_func(*args, **kwargs)`; `budget` is the consumer's pace.

Source shape: a fresh event loop is created and installed; the `while True`
loop drives `__anext__` and yields each item; the `finally` block always
runs: it cancels outstanding tasks, awaits `loop.shutdown_asyncgens()`
(exceptions during this shutdown are caught and logged), and closes the
loop.  An exception that escaped the loop is then re-raised to the caller. -/
def run_async_generator_synchronously {α : Type} (items : List α) (term : Option PyExn)
    (budget : Option Nat) : SyncDrainResult α :=
  let r := syncDrainLoop items term budget
  { events := r.1.map .yielded ++ [.shutdownAsyncgens, .loopClosed], raised := r.2 }

/-- The items a bridge call delivered to its synchronous consumer, read off
its event trace. -/
def yieldedItems {α : Type} (evs : List (BridgeEv α)) : List α :=
  evs.filterMap fun
    | .yielded a => some a
    | _ => none

/-! ## `get_context_usage_info` (`app.py` lines 265-284) -/

/-- The fields of the `ContextPresenceInfo` object returned by the external
`get_last_interaction_context_info` call that this repository reads:
`final_token_count`, `max_tokens_for_model`, and `rag_documents_used`
(document payloads represented opaquely by strings; an absent list is
represented by `[]`, matching Python falsiness). -/
structure ContextDetails where
  final_token_count : Option Int
  max_tokens_for_model : Option Int
  rag_documents_used : List String
deriving DecidableEq, Repr

/-- The dict built by `get_context_usage_info`.  Python computes
`usage_percentage` with float division; it is embedded as the exact
rational. -/
structure UsageInfo where
  tokens_used : Int
  max_tokens : Int
  usage_percentage : ℚ
deriving DecidableEq, Repr

/-- Embedding of `get_context_usage_info` (`app.py` lines 265-284).
`hasInstance` is the truthiness of the global `llmcore_instance`;
`callResult` is the outcome of the external
`await llmcore_instance.get_last_interaction_context_info(session_id)`.

Source shape: returns `None` when the instance or the session id is falsy;
the awaited call sits inside `try/except Exception`, whose handler logs and
falls through to `return None`; a `None` context-details object also falls
through to `return None`.  Otherwise the dict is built with
`final_token_count`/`max_tokens_for_model` defaulted to 0 when `None`, and
`usage_percentage = tokens_used / max_tokens * 100` guarded by
`max_tokens > 0`, else `0`. -/
def get_context_usage_info (hasInstance : Bool) (sessionId : Option String)
    (callResult : Except PyExn (Option ContextDetails)) : Option UsageInfo :=
  if !hasInstance || !isTruthyOpt sessionId then
    none
  else
    match callResult with
    | .error _ => none
    | .ok none => none
    | .ok (some cd) =>
      let tokensUsed := cd.final_token_count.getD 0
      let maxTokens := cd.max_tokens_for_model.getD 0
      some
        { tokens_used := tokensUsed
          max_tokens := maxTokens
          usage_percentage :=
            if maxTokens > 0 then (tokensUsed : ℚ) / (maxTokens : ℚ) * 100 else 0 }

/-! ## SSE frames and the stream helpers

Each frame the helpers yield is one SSE record
`"data: " + json.dumps({...}) + "\n\n"`; frames are embedded by their JSON
payload, discriminated by the `type` field. -/

/-- One SSE frame emitted by a stream helper, discriminated by its `type`
field (`chunk`, `rag_results`, `full_response_id`, `context_usage`,
`error`, `end`).  `ragResults` carries the number of documents in its
payload; `contextUsage` carries the usage dict. -/
inductive Frame where
  | chunk (content : String)
  | ragResults (docCount : Nat)
  | fullResponseId (messageId : String)
  | contextUsage (data : UsageInfo)
  | error (errorMsg : String)
  | streamEnd
deriving DecidableEq, Repr

/-- Whether a frame has `type: "error"`. -/
def isErrorFrame : Frame → Bool
  | .error _ => true
  | _ => false

/-- The error frame emitted by the `except` clauses shared by both stream
helpers: the LLMCore-family clause forwards `str(e)`, the generic
`except Exception` clause emits a fixed message. -/
def exnFrames : Option PyExn → List Frame
  | none => []
  | some e =>
    if e.llmcoreFamily then [Frame.error e.msg]
    else [Frame.error "An unexpected server error occurred during chat."]

/-- Behaviour of the external collaborators during one run of the current
stream helper (`routes/chat_routes.py` lines 145-193).

`chatCall` is the outcome of `await llmcore_instance.chat(**params)`
(returning the response generator); `chunks` are the items the response
generator yields before its terminal event; `iterError` is `some e` when
advancing it raises `e` after those chunks, `none` on normal exhaustion.
`ctxInfoForRag` is the outcome of the direct
`get_last_interaction_context_info` call made for the `rag_results` frame;
`lastMsgIdCall` is the outcome of the `get_session` lookup inside
`_get_last_assistant_message_id` (reduced to the id it returns, or the
exception the lookup raises); `ctxInfoForUsage` is the outcome of the
second `get_last_interaction_context_info` call, made inside
`get_context_usage_info`. -/
structure ChatStreamScenario where
  chatCall : Except PyExn Unit
  chunks : List String
  iterError : Option PyExn
  sessionId : Option String
  ctxInfoForRag : Except PyExn (Option ContextDetails)
  lastMsgIdCall : Except PyExn (Option String)
  ctxInfoForUsage : Except PyExn (Option ContextDetails)
deriving Repr

/-- `_get_last_assistant_message_id` of `routes/chat_routes.py` (lines
45-60): every exception class raised by the underlying lookup —
`SessionNotFoundError`, `LLMCoreError`, and a final generic
`except Exception` — is caught and logged, and the function falls through
to `return None`.  It never raises. -/
def lastAssistantMessageIdCurrent (call : Except PyExn (Option String)) : Option String :=
  match call with
  | .error _ => none
  | .ok v => v

/-- `_get_last_assistant_message_id` of the legacy `routes.py` (lines
198-213): only `SessionNotFoundError` and `LLMCoreError` are caught (both
in the LLMCore family); an exception outside that family propagates to the
caller. -/
def lastAssistantMessageIdLegacy (call : Except PyExn (Option String)) :
    Except PyExn (Option String) :=
  match call with
  | .error e => if e.llmcoreFamily then .ok none else .error e
  | .ok v => .ok v

/-- The `try` body of the current stream helper: the frames yielded before
reaching the `except`/`finally` clauses, and the exception that escaped the
body, if any.  Mirrors `routes/chat_routes.py` lines 157-182: await the
chat call, stream the chunks, then — only under `if session_id_for_meta:` —
fetch RAG context details (a raise here escapes the body), emit
`rag_results` when documents were used, emit `full_response_id` when a
truthy id was found, and emit `context_usage` when
`get_context_usage_info` returned a dict. -/
def streamChatTryBody (s : ChatStreamScenario) : List Frame × Option PyExn :=
  match s.chatCall with
  | .error e => ([], some e)
  | .ok _ =>
    let cf := s.chunks.map Frame.chunk
    match s.iterError with
    | some e => (cf, some e)
    | none =>
      if isTruthyOpt s.sessionId then
        match s.ctxInfoForRag with
        | .error e => (cf, some e)
        | .ok cdOpt =>
          let ragF :=
            match cdOpt with
            | some cd =>
              if cd.rag_documents_used.isEmpty then []
              else [Frame.ragResults cd.rag_documents_used.length]
            | none => []
          let lastId := lastAssistantMessageIdCurrent s.lastMsgIdCall
          let idF :=
            if isTruthyOpt lastId then [Frame.fullResponseId (lastId.getD "")] else []
          let uF :=
            match get_context_usage_info true s.sessionId s.ctxInfoForUsage with
            | some u => [Frame.contextUsage u]
            | none => []
          (cf ++ (ragF ++ (idF ++ uF)), none)
      else (cf, none)

/-- All frames of the current stream helper except the terminal one: the
`try` body's frames followed by the frame of whichever `except` clause
caught the escaped exception.  `hasInstance` is the truthiness of the
global `llmcore_instance`; when it is falsy the helper yields the
service-unavailable error frame and returns. -/
def streamChatAllButEnd (hasInstance : Bool) (s : ChatStreamScenario) : List Frame :=
  if !hasInstance then [Frame.error "LLM service not available."]
  else
    let r := streamChatTryBody s
    r.1 ++ exnFrames r.2

/-- Embedding of `_stream_chat_responses_route_helper`
(`routes/chat_routes.py` lines 145-193), run to natural completion: the
`finally` clause appends the terminal `end` frame on every path. -/
def stream_chat_responses_route_helper (hasInstance : Bool) (s : ChatStreamScenario) :
    List Frame :=
  streamChatAllButEnd hasInstance s ++ [Frame.streamEnd]

/-- The frame sequence produced when the client disconnects after consuming
`k` frames: closing the suspended helper throws `GeneratorExit` at the
current `yield`; the pending frames of the `try` body and `except` clauses
are abandoned (`GeneratorExit` is not an `Exception`, so neither `except`
clause catches it), and the `finally` clause still yields the terminal
`end` frame. -/
def streamChatFramesOnDisconnect (hasInstance : Bool) (s : ChatStreamScenario) (k : Nat) :
    List Frame :=
  (streamChatAllButEnd hasInstance s).take k ++ [Frame.streamEnd]

/-- Behaviour of the external collaborators during one run of the legacy
stream helper (`routes.py` lines 268-308).  The legacy helper iterates
`llmcore_instance.chat(**call_params)` directly (`chunks`/`iterError`),
emits no `rag_results` frame, and fetches only the last-assistant-message
id and the context usage. -/
structure LegacyStreamScenario where
  chunks : List String
  iterError : Option PyExn
  sessionId : Option String
  lastMsgIdCall : Except PyExn (Option String)
  ctxInfoForUsage : Except PyExn (Option ContextDetails)
deriving Repr

/-- The `try` body of the legacy stream helper (`routes.py` lines 283-301):
stream the chunks; under `if session_id_for_meta:` call
`_get_last_assistant_message_id` (whose non-LLMCore exceptions escape the
body) and `get_context_usage_info` (total); then emit `full_response_id`
and `context_usage` when their values are truthy. -/
def streamChatTryBodyLegacy (s : LegacyStreamScenario) : List Frame × Option PyExn :=
  let cf := s.chunks.map Frame.chunk
  match s.iterError with
  | some e => (cf, some e)
  | none =>
    if isTruthyOpt s.sessionId then
      match lastAssistantMessageIdLegacy s.lastMsgIdCall with
      | .error e => (cf, some e)
      | .ok lastId =>
        let idF :=
          if isTruthyOpt lastId then [Frame.fullResponseId (lastId.getD "")] else []
        let uF :=
          match get_context_usage_info true s.sessionId s.ctxInfoForUsage with
          | some u => [Frame.contextUsage u]
          | none => []
        (cf ++ (idF ++ uF), none)
    else (cf, none)

/-- All frames of the legacy stream helper except the terminal one.  -/
def streamChatAllButEndLegacy (hasInstance : Bool) (s : LegacyStreamScenario) : List Frame :=
  if !hasInstance then [Frame.error "LLM service not available."]
  else
    let r := streamChatTryBodyLegacy s
    r.1 ++ exnFrames r.2

/-- Embedding of the legacy `_stream_chat_responses_route_helper`
(`routes.py` lines 268-308), run to natural completion. -/
def stream_chat_responses_route_helper_legacy (hasInstance : Bool)
    (s : LegacyStreamScenario) : List Frame :=
  streamChatAllButEndLegacy hasInstance s ++ [Frame.streamEnd]

/-- The frames delivered to the HTTP client by the streaming chat route:
`run_async_generator_synchronously(_stream_chat_responses_route_helper,
llm_core_params)` drained to completion by `stream_with_context`
(`routes/chat_routes.py` lines 326-327).  The helper, as an async
generator, yields its frame list and then exhausts normally — every
exception inside it is caught and converted to an in-band frame — so its
terminal event is `none`. -/
def streamedChatFrames (hasInstance : Bool) (s : ChatStreamScenario) : List Frame :=
  yieldedItems
    (run_async_generator_synchronously
      (stream_chat_responses_route_helper hasInstance s) none none).events

/-- The frames delivered to the client by the legacy streaming chat route
(`routes.py` line 405). -/
def streamedChatFramesLegacy (hasInstance : Bool) (s : LegacyStreamScenario) : List Frame :=
  yieldedItems
    (run_async_generator_synchronously
      (stream_chat_responses_route_helper_legacy hasInstance s) none none).events

/-! ## Route guards (`routes/chat_routes.py`, `routes/core_routes.py`) -/

/-- Embedding of the service-availability guard of `api_chat_route`
(`routes/chat_routes.py` lines 216-218): when the global `llmcore_instance`
is falsy the route short-circuits with
`jsonify({"error": "LLM service not available."}), 503` before any call
into the external library; otherwise it proceeds to the chat dispatch. -/
def api_chat_route_guard (st : CoreState) : Except (Nat × String) Unit :=
  if st.llmcore_instance.isNone then .error (503, "LLM service not available.")
  else .ok ()

/-- Embedding of the `llmcore_status`/`llmcore_error` fields of the
`api_status` payload (`routes/core_routes.py` lines 127-145): a recorded
initialization error dominates, then a missing instance reports
`initializing`, then a present instance reports `operational` when its
config is available and `error` otherwise.  `hasConfig` is the truthiness
of `llmcore_instance.config`. -/
def api_status_core_fields (st : CoreState) (hasConfig : Bool) : String × Option String :=
  match st.llmcore_init_error with
  | some e => ("error", some e)
  | none =>
    if st.llmcore_instance.isNone then
      ("initializing", some "LLMCore instance is None (still initializing or failed silently).")
    else if hasConfig then ("operational", none)
    else ("error", some "LLMCore instance exists but its config is unavailable.")

/-! ## The frame-sequence contract

`frameSeqOk out` states the client-visible streaming contract: the sequence
ends with a terminal `end` frame, that `end` frame is the only one, at most
one `error` frame appears, and an `error` frame can only sit immediately
before the terminal `end`. -/

/-- Contract on everything before the terminal frame: no `end` frame, and
either no `error` frame at all, or exactly one and it is the last frame. -/
def bodyOk (l : List Frame) : Prop :=
  (∀ f ∈ l, f ≠ Frame.streamEnd) ∧
  ((∀ f ∈ l, isErrorFrame f = false) ∨
    ∃ front m, l = front ++ [Frame.error m] ∧ ∀ f ∈ front, isErrorFrame f = false)

/-- The full streaming contract on an emitted frame sequence. -/
def frameSeqOk (out : List Frame) : Prop :=
  ∃ body, out = body ++ [Frame.streamEnd] ∧ bodyOk body

/-- A frame list containing neither `error` nor `end` frames satisfies
`bodyOk`. -/
lemma bodyOk_of_clean (l : List Frame)
    (h : ∀ f ∈ l, isErrorFrame f = false ∧ f ≠ Frame.streamEnd) : bodyOk l := by
  refine ⟨fun f hf => (h f hf).2, Or.inl fun f hf => (h f hf).1⟩

/-- Appending the frames of the `except` clauses to a clean `try`-body
preserves `bodyOk`. -/
lemma bodyOk_append_exnFrames (l : List Frame)
    (h : ∀ f ∈ l, isErrorFrame f = false ∧ f ≠ Frame.streamEnd) (ex : Option PyExn) :
    bodyOk (l ++ exnFrames ex) := by
  match ex with
  | none => simpa [exnFrames] using bodyOk_of_clean l h
  | some e =>
    have hfr : ∃ m, exnFrames (some e) = [Frame.error m] := by
      by_cases hf : e.llmcoreFamily <;> simp [exnFrames, hf]
    obtain ⟨m, hm⟩ := hfr
    rw [hm]
    constructor
    · intro f hf
      rcases List.mem_append.1 hf with hl | hr
      · exact (h f hl).2
      · simp only [List.mem_singleton] at hr
        subst hr
        intro hcon
        cases hcon
    · exact Or.inr ⟨l, m, rfl, fun f hf => (h f hf).1⟩

/-- Truncating a `bodyOk` frame list preserves `bodyOk`: an early client
disconnect keeps the body well-formed. -/
lemma bodyOk_take (l : List Frame) (k : Nat) (h : bodyOk l) : bodyOk (l.take k) := by
  obtain ⟨hEnd, hErr⟩ := h
  refine ⟨fun f hf => hEnd f (List.mem_of_mem_take hf), ?_⟩
  rcases hErr with hclean | ⟨front, m, rfl, hfront⟩
  · exact Or.inl fun f hf => hclean f (List.mem_of_mem_take hf)
  · rw [List.take_append_eq_append_take]
    by_cases hk : k ≤ front.length
    · have : k - front.length = 0 := Nat.sub_eq_zero_of_le hk
      rw [this]
      simp only [List.take_zero, List.append_nil]
      exact Or.inl fun f hf => hfront f (List.mem_of_mem_take hf)
    · push_neg at hk
      have h1 : front.take k = front := List.take_of_length_le (Nat.le_of_lt hk)
      have h2 : 1 ≤ k - front.length := Nat.le_sub_of_add_le (by omega)
      have h3 : ([Frame.error m] : List Frame).take (k - front.length) = [Frame.error m] :=
        List.take_of_length_le (by simpa using h2)
      rw [h1, h3]
      exact Or.inr ⟨front, m, rfl, hfront⟩

/-- The frames of the current helper's `try` body carry only data
(`chunk`, `rag_results`, `full_response_id`, `context_usage`): none of
them is an `error` or `end` frame. -/
lemma streamChatTryBody_clean (s : ChatStreamScenario) :
    ∀ f ∈ (streamChatTryBody s).1, isErrorFrame f = false ∧ f ≠ Frame.streamEnd := by
  intro f hf
  unfold streamChatTryBody at hf
  have hchunk : ∀ g ∈ s.chunks.map Frame.chunk,
      isErrorFrame g = false ∧ g ≠ Frame.streamEnd := by
    intro g hg
    obtain ⟨c, _, rfl⟩ := List.mem_map.1 hg
    exact ⟨rfl, fun hcon => by cases hcon⟩
  rcases hc : s.chatCall with e | u
  · rw [hc] at hf
    simp at hf
  rw [hc] at hf
  rcases hi : s.iterError with _ | e
  · rw [hi] at hf
    simp only at hf
    by_cases hs : isTruthyOpt s.sessionId
    · rw [if_pos hs] at hf
      rcases hr : s.ctxInfoForRag with e | cdOpt
      · rw [hr] at hf
        exact hchunk f hf
      · rw [hr] at hf
        simp only [List.mem_append] at hf
        rcases hf with hf | hf
        · exact hchunk f hf
        rcases hf with hf | hf
        · rcases cdOpt with _ | cd
          · simp at hf
          · simp only at hf
            by_cases hemp : cd.rag_documents_used.isEmpty
            · rw [if_pos hemp] at hf
              simp at hf
            · rw [if_neg hemp] at hf
              simp only [List.mem_singleton] at hf
              subst hf
              exact ⟨rfl, fun hcon => by cases hcon⟩
        rcases hf with hf | hf
        · by_cases hid : isTruthyOpt (lastAssistantMessageIdCurrent s.lastMsgIdCall)
          · rw [if_pos hid] at hf
            simp only [List.mem_singleton] at hf
            subst hf
            exact ⟨rfl, fun hcon => by cases hcon⟩
          · rw [if_neg hid] at hf
            simp at hf
        · rcases hu : get_context_usage_info true s.sessionId s.ctxInfoForUsage with _ | u
          · rw [hu] at hf
            simp at hf
          · rw [hu] at hf
            simp only [List.mem_singleton] at hf
            subst hf
            exact ⟨rfl, fun hcon => by cases hcon⟩
    · rw [if_neg hs] at hf
      exact hchunk f hf
  · rw [hi] at hf
    exact hchunk f hf

/-- The frames of the legacy helper's `try` body carry only data. -/
lemma streamChatTryBodyLegacy_clean (s : LegacyStreamScenario) :
    ∀ f ∈ (streamChatTryBodyLegacy s).1, isErrorFrame f = false ∧ f ≠ Frame.streamEnd := by
  intro f hf
  unfold streamChatTryBodyLegacy at hf
  have hchunk : ∀ g ∈ s.chunks.map Frame.chunk,
      isErrorFrame g = false ∧ g ≠ Frame.streamEnd := by
    intro g hg
    obtain ⟨c, _, rfl⟩ := List.mem_map.1 hg
    exact ⟨rfl, fun hcon => by cases hcon⟩
  rcases hi : s.iterError with _ | e
  · rw [hi] at hf
    simp only at hf
    by_cases hs : isTruthyOpt s.sessionId
    · rw [if_pos hs] at hf
      rcases hl : lastAssistantMessageIdLegacy s.lastMsgIdCall with e | lastId
      · rw [hl] at hf
        exact hchunk f hf
      · rw [hl] at hf
        simp only [List.mem_append] at hf
        rcases hf with hf | hf
        · exact hchunk f hf
        rcases hf with hf | hf
        · by_cases hid : isTruthyOpt lastId
          · rw [if_pos hid] at hf
            simp only [List.mem_singleton] at hf
            subst hf
            exact ⟨rfl, fun hcon => by cases hcon⟩
          · rw [if_neg hid] at hf
            simp at hf
        · rcases hu : get_context_usage_info true s.sessionId s.ctxInfoForUsage with _ | u
          · rw [hu] at hf
            simp at hf
          · rw [hu] at hf
            simp only [List.mem_singleton] at hf
            subst hf
            exact ⟨rfl, fun hcon => by cases hcon⟩
    · rw [if_neg hs] at hf
      exact hchunk f hf
  · rw [hi] at hf
    exact hchunk f hf

/-- Everything before the terminal frame of the current helper satisfies
the body contract, whatever the collaborators did. -/
lemma streamChatAllButEnd_bodyOk (hasInstance : Bool) (s : ChatStreamScenario) :
    bodyOk (streamChatAllButEnd hasInstance s) := by
  unfold streamChatAllButEnd
  by_cases hi : hasInstance
  · rw [hi]
    simpa using bodyOk_append_exnFrames _ (streamChatTryBody_clean s) (streamChatTryBody s).2
  · simp only [Bool.not_eq_true] at hi
    rw [hi]
    refine ⟨?_, Or.inr ⟨[], "LLM service not available.", rfl, by simp⟩⟩
    intro f hf
    simp only [Bool.not_false, if_pos, List.mem_singleton] at hf
    subst hf
    intro hcon
    cases hcon

/-- Everything before the terminal frame of the legacy helper satisfies the
body contract. -/
lemma streamChatAllButEndLegacy_bodyOk (hasInstance : Bool) (s : LegacyStreamScenario) :
    bodyOk (streamChatAllButEndLegacy hasInstance s) := by
  unfold streamChatAllButEndLegacy
  by_cases hi : hasInstance
  · rw [hi]
    simpa using
      bodyOk_append_exnFrames _ (streamChatTryBodyLegacy_clean s) (streamChatTryBodyLegacy s).2
  · simp only [Bool.not_eq_true] at hi
    rw [hi]
    refine ⟨?_, Or.inr ⟨[], "LLM service not available.", rfl, by simp⟩⟩
    intro f hf
    simp only [Bool.not_false, if_pos, List.mem_singleton] at hf
    subst hf
    intro hcon
    cases hcon

/-! ## Behaviour of the sync-generator drain loop -/

/-- Draining with an unbounded consumer forwards the async generator's
behaviour verbatim: all items in order, and the terminal exception, if
any, escapes the loop. -/
lemma syncDrainLoop_unbounded {α : Type} (items : List α) (term : Option PyExn) :
    syncDrainLoop items term none = (items, term) := by
  induction items with
  | nil => rfl
  | cons a rest ih => simp [syncDrainLoop, ih]

/-- Draining with a consumer that pulls at most `k` items yields exactly
the length-`k` prefix; the terminal exception escapes only when the
consumer actually drives the generator past its last item. -/
lemma syncDrainLoop_bounded {α : Type} (items : List α) (term : Option PyExn) (k : Nat) :
    syncDrainLoop items term (some k) =
      (items.take k, if items.length < k then term else none) := by
  induction items generalizing k with
  | nil =>
    cases k with
    | zero => simp [syncDrainLoop]
    | succ n => simp [syncDrainLoop]
  | cons a rest ih =>
    cases k with
    | zero => simp [syncDrainLoop]
    | succ n =>
      have hmap : Option.map (fun b : Nat => b - 1) (some (n + 1)) = some n := rfl
      simp only [syncDrainLoop, hmap, ih, List.take_succ_cons, List.length_cons]
      by_cases hlt : rest.length < n
      · rw [if_pos hlt, if_pos (by omega)]
      · rw [if_neg hlt, if_neg (by omega)]

/-- `yieldedItems` distributes over trace concatenation. -/
lemma yieldedItems_append {α : Type} (l₁ l₂ : List (BridgeEv α)) :
    yieldedItems (l₁ ++ l₂) = yieldedItems l₁ ++ yieldedItems l₂ := by
  unfold yieldedItems
  simp [List.filterMap_append]

/-- `yieldedItems` inverts the embedding of items into trace events. -/
lemma yieldedItems_map {α : Type} (l : List α) :
    yieldedItems (l.map BridgeEv.yielded) = l := by
  induction l with
  | nil => rfl
  | cons a t ih =>
    simp only [List.map_cons]
    show a :: yieldedItems (t.map BridgeEv.yielded) = a :: t
    rw [ih]

/-- The items delivered by a bridge call, recovered from its trace. -/
lemma yieldedItems_of_run {α : Type} (items : List α) (term : Option PyExn)
    (budget : Option Nat) :
    yieldedItems (run_async_generator_synchronously items term budget).events =
      (syncDrainLoop items term budget).1 := by
  show yieldedItems ((syncDrainLoop items term budget).1.map BridgeEv.yielded ++
      [BridgeEv.shutdownAsyncgens, BridgeEv.loopClosed]) = _
  rw [yieldedItems_append, yieldedItems_map]
  have h2 : yieldedItems ([BridgeEv.shutdownAsyncgens, BridgeEv.loopClosed] : List (BridgeEv α)) = [] := rfl
  rw [h2, List.append_nil]

/-! ## Sanity checks on concrete scenarios -/

example :
    stream_chat_responses_route_helper true
      { chatCall := .ok (), chunks := ["Hello", " ", "world"], iterError := none,
        sessionId := none, ctxInfoForRag := .ok none, lastMsgIdCall := .ok none,
        ctxInfoForUsage := .ok none } =
      [Frame.chunk "Hello", Frame.chunk " ", Frame.chunk "world", Frame.streamEnd] := by
  rfl

example :
    stream_chat_responses_route_helper true
      { chatCall := .ok (), chunks := ["partial"],
        iterError := some { cls := "ProviderError", msg := "boom", llmcoreFamily := true },
        sessionId := none, ctxInfoForRag := .ok none, lastMsgIdCall := .ok none,
        ctxInfoForUsage := .ok none } =
      [Frame.chunk "partial", Frame.error "boom", Frame.streamEnd] := by
  rfl

example :
    stream_chat_responses_route_helper false
      { chatCall := .ok (), chunks := [], iterError := none, sessionId := none,
        ctxInfoForRag := .ok none, lastMsgIdCall := .ok none, ctxInfoForUsage := .ok none } =
      [Frame.error "LLM service not available.", Frame.streamEnd] := by
  rfl

/-! ## Claim theorems -/

/-- C1: for every execution of the streaming chat SSE generator —
`_stream_chat_responses_route_helper` (both the current
`routes/chat_routes.py` version and the legacy `routes.py` version) driven
through `run_async_generator_synchronously` — and for every behaviour of
the underlying chat generator and metadata calls (zero items, items then
normal exhaustion, an error on the first item, an error mid-sequence), the
delivered frame sequence ends with exactly one `end` frame, contains at
most one `error` frame, and any `error` frame sits immediately before the
terminal `end` frame; the driven helper itself never raises into the
route; and the same contract holds for the frames emitted when the client
disconnects after consuming `k` frames (the `finally` clause still yields
the terminal `end`). -/
theorem c1_stream_terminal_frame_contract (hasInstance : Bool) (s : ChatStreamScenario)
    (sl : LegacyStreamScenario) (k : Nat) :
    frameSeqOk (streamedChatFrames hasInstance s) ∧
    (run_async_generator_synchronously
      (stream_chat_responses_route_helper hasInstance s) none none).raised = none ∧
    frameSeqOk (streamedChatFramesLegacy hasInstance sl) ∧
    frameSeqOk (streamChatFramesOnDisconnect hasInstance s k) := by
  have hdeliv : streamedChatFrames hasInstance s =
      stream_chat_responses_route_helper hasInstance s := by
    unfold streamedChatFrames
    rw [yieldedItems_of_run, syncDrainLoop_unbounded]
  have hdelivLegacy : streamedChatFramesLegacy hasInstance sl =
      stream_chat_responses_route_helper_legacy hasInstance sl := by
    unfold streamedChatFramesLegacy
    rw [yieldedItems_of_run, syncDrainLoop_unbounded]
  refine ⟨?_, ?_, ?_, ?_⟩
  · rw [hdeliv]
    exact ⟨streamChatAllButEnd hasInstance s, rfl, streamChatAllButEnd_bodyOk hasInstance s⟩
  · show (syncDrainLoop (stream_chat_responses_route_helper hasInstance s)
      (none : Option PyExn) none).2 = none
    rw [syncDrainLoop_unbounded]
  · rw [hdelivLegacy]
    exact ⟨streamChatAllButEndLegacy hasInstance sl, rfl,
      streamChatAllButEndLegacy_bodyOk hasInstance sl⟩
  · exact ⟨(streamChatAllButEnd hasInstance s).take k, rfl,
      bodyOk_take _ k (streamChatAllButEnd_bodyOk hasInstance s)⟩

/-- C2: when the calling thread has no already-running event loop (the
normal situation in a synchronous Flask worker), `async_to_sync_in_flask`
is fully transparent: a coroutine that returns `v` makes the wrapper
return exactly `v`, and a coroutine that raises exception type `X` with
message `M` makes the wrapper raise the same `X` with the same `M`,
unmodified — the created-loop teardown in the `finally` block never masks
the result. -/
theorem c2_run_to_completion_transparency {α : Type} (st : ThreadState)
    (coro : Except PyExn α) (h : st.running = none) :
    (async_to_sync_in_flask st coro).result = coro := by
  rcases st with ⟨r, p, c, n⟩
  simp only at h
  subst h
  rfl

/-- Witness for C2 at concrete inputs: an exception `ValueError("boom")`
comes back unchanged, and a returned value comes back unchanged. -/
theorem c2_witness :
    (async_to_sync_in_flask { running := none, policy := none, closed := [], nextId := 0 }
      (.error { cls := "ValueError", msg := "boom", llmcoreFamily := false } :
        Except PyExn Nat)).result =
      .error { cls := "ValueError", msg := "boom", llmcoreFamily := false } ∧
    (async_to_sync_in_flask { running := none, policy := none, closed := [], nextId := 0 }
      (.ok 42 : Except PyExn Nat)).result = .ok 42 :=
  ⟨c2_run_to_completion_transparency _ _ rfl, c2_run_to_completion_transparency _ _ rfl⟩

/-- C3 counterexample: the claim says an error raised while advancing the
async generator is not re-raised into the synchronous caller of
`run_async_generator_synchronously`; but the bridge's loop catches only
`StopAsyncIteration`, so a generator whose first advance raises
`ValueError("boom")` propagates that exact exception to the synchronous
caller. -/
theorem c3_counterexample :
    (run_async_generator_synchronously ([] : List String)
        (some { cls := "ValueError", msg := "boom", llmcoreFamily := false }) none).raised =
      some { cls := "ValueError", msg := "boom", llmcoreFamily := false } := by
  rfl

/-- C3 amended: if advancing the async generator raises an error other
than normal exhaustion, iteration stops (exactly the items yielded before
the error are delivered), the bridge's loop cleanup still runs, and the
error IS re-raised unchanged into the synchronous caller — only
`StopAsyncIteration` is caught.  (In the chat pipeline no error reaches
this path, because the stream helpers convert every exception to an
in-band `error` frame.) -/
theorem c3_amended_error_propagates (items : List String) (e : PyExn) :
    (run_async_generator_synchronously items (some e) none).raised = some e ∧
    yieldedItems (run_async_generator_synchronously items (some e) none).events = items ∧
    BridgeEv.shutdownAsyncgens ∈ (run_async_generator_synchronously items (some e) none).events := by
  refine ⟨?_, ?_, ?_⟩
  · show (syncDrainLoop items (some e) none).2 = some e
    rw [syncDrainLoop_unbounded]
  · rw [yieldedItems_of_run, syncDrainLoop_unbounded]
  · show BridgeEv.shutdownAsyncgens ∈
      (syncDrainLoop items (some e) none).1.map BridgeEv.yielded ++
        [BridgeEv.shutdownAsyncgens, BridgeEv.loopClosed]
    exact List.mem_append.2 (Or.inr (by simp))

/-- C4 counterexample: the claim says that once the handle has left the
uninitialized state — including the failed state, where
`llmcore_instance` is `None` and `llmcore_init_error` is set — invoking
`initialize_llmcore_async` again is a no-op; but its guard checks only
`llmcore_instance is not None`, so in the failed state it calls
`LLMCore.create()` again and overwrites both globals. -/
theorem c4_counterexample :
    (initialize_llmcore_async
        { llmcore_instance := none, llmcore_init_error := some "previous failure" }
        (.ok 7)).2 = true ∧
    (initialize_llmcore_async
        { llmcore_instance := none, llmcore_init_error := some "previous failure" }
        (.ok 7)).1 ≠
      { llmcore_instance := none, llmcore_init_error := some "previous failure" } := by
  decide

/-- C4 amended: `initialize_llmcore_async` is a no-op — no further
`LLMCore.create` call, globals unchanged — whenever `llmcore_instance` is
set (ready state); and the module-load initialization path, which invokes
it only under the guard `llmcore_instance is None and llmcore_init_error
is None`, is a no-op whenever the handle has left the uninitialized state,
in the ready and in the failed state alike.  A direct invocation of
`initialize_llmcore_async` in the failed state, however, re-attempts
`LLMCore.create` (see the counterexample). -/
theorem c4_amended_idempotent_when_guarded (st : CoreState) (cr : Except PyExn Nat) :
    (st.llmcore_instance.isSome = true → initialize_llmcore_async st cr = (st, false)) ∧
    (st.llmcore_instance.isSome = true ∨ st.llmcore_init_error.isSome = true →
      moduleLoadInitGuard st cr = (st, false)) := by
  constructor
  · intro h
    unfold initialize_llmcore_async
    rw [if_pos h]
  · intro h
    rcases st with ⟨i, er⟩
    unfold moduleLoadInitGuard
    rcases i with _ | v
    · rcases er with _ | m
      · simp at h
      · simp
    · simp

/-- Witness for C4's amended theorem: in the ready state the initializer
is a no-op, and in the failed state the guarded module-load path is a
no-op. -/
theorem c4_witness :
    initialize_llmcore_async { llmcore_instance := some 3, llmcore_init_error := none }
        (.ok 7) =
      ({ llmcore_instance := some 3, llmcore_init_error := none }, false) ∧
    moduleLoadInitGuard { llmcore_instance := none, llmcore_init_error := some "boom" }
        (.ok 7) =
      ({ llmcore_instance := none, llmcore_init_error := some "boom" }, false) :=
  ⟨(c4_amended_idempotent_when_guarded _ _).1 rfl,
    (c4_amended_idempotent_when_guarded _ _).2 (Or.inr rfl)⟩

/-- C5: for an async generator yielding `items` and then exhausting
normally, `run_async_generator_synchronously` delivers exactly `items` in
order — no duplication, no drop, no reordering — with no exception to the
caller, so the synchronous sequence equals the sequence obtained by
draining the async generator directly; and a consumer that stops after `k`
pulls receives exactly the length-`k` prefix, whatever its pace. -/
theorem c5_order_preserving_drain (items : List String) (k : Nat) :
    yieldedItems (run_async_generator_synchronously items none none).events = items ∧
    (run_async_generator_synchronously items none none).raised = none ∧
    yieldedItems (run_async_generator_synchronously items none (some k)).events =
      items.take k := by
  refine ⟨?_, ?_, ?_⟩
  · rw [yieldedItems_of_run, syncDrainLoop_unbounded]
  · show (syncDrainLoop items (none : Option PyExn) none).2 = none
    rw [syncDrainLoop_unbounded]
  · rw [yieldedItems_of_run, syncDrainLoop_bounded]

/-- C6: on every exit path of `run_async_generator_synchronously` — normal
exhaustion, an error raised while advancing, or a consumer that abandons
the sequence after `k` items (early `break` closing the generator) — the
`finally` block runs before the call returns: the trace always ends with
the `loop.shutdown_asyncgens()` call (which finalizes the async generators
the loop iterated, i.e. the underlying generator's close path) followed by
`loop.close()`, after all delivered items. -/
theorem c6_cleanup_on_every_exit_path (items : List String) (term : Option PyExn)
    (budget : Option Nat) :
    (run_async_generator_synchronously items term budget).events =
      ((syncDrainLoop items term budget).1.map BridgeEv.yielded) ++
        [BridgeEv.shutdownAsyncgens, BridgeEv.loopClosed] ∧
    BridgeEv.shutdownAsyncgens ∈ (run_async_generator_synchronously items term budget).events ∧
    BridgeEv.loopClosed ∈ (run_async_generator_synchronously items term budget).events := by
  refine ⟨rfl, ?_, ?_⟩
  · exact List.mem_append.2 (Or.inr (by simp))
  · exact List.mem_append.2 (Or.inr (by simp))

/-- C7: a call through `async_to_sync_in_flask` on a thread that already
has an active running event loop it does not own fails loudly — asyncio's
`run_until_complete` raises `RuntimeError("This event loop is already
running")` — and the coroutine is never driven inside that foreign loop;
the thread's asyncio state is left untouched. -/
theorem c7_foreign_running_loop_conflict {α : Type} (st : ThreadState)
    (coro : Except PyExn α) (lid : Nat) (h : st.running = some lid) :
    (async_to_sync_in_flask st coro).result = .error eventLoopAlreadyRunningExn ∧
    (async_to_sync_in_flask st coro).coroDriven = false ∧
    (async_to_sync_in_flask st coro).final = st := by
  rcases st with ⟨r, p, c, n⟩
  simp only at h
  subst h
  exact ⟨rfl, rfl, rfl⟩

/-- Witness for C7: on a thread whose loop 5 is running, the call raises
the nested-loop `RuntimeError` and does not drive the coroutine. -/
theorem c7_witness :
    (async_to_sync_in_flask { running := some 5, policy := some 5, closed := [], nextId := 6 }
      (.ok 1 : Except PyExn Nat)).result = .error eventLoopAlreadyRunningExn ∧
    (async_to_sync_in_flask { running := some 5, policy := some 5, closed := [], nextId := 6 }
      (.ok 1 : Except PyExn Nat)).coroDriven = false :=
  ⟨(c7_foreign_running_loop_conflict _ _ 5 rfl).1,
    (c7_foreign_running_loop_conflict _ _ 5 rfl).2.1⟩

/-- C8: with the Core-Library Handle in the failed state
(`llmcore_instance` is `None`, `llmcore_init_error` records the failure),
a POST to the chat endpoint short-circuits to HTTP 503 with a
service-unavailable body before any call into the external library
(`api_chat_route`, `routes/chat_routes.py` lines 216-218), and the status
endpoint surfaces the captured initialization error message for
diagnostics in its `llmcore_status`/`llmcore_error` fields (`api_status`,
`routes/core_routes.py` lines 127-145). -/
theorem c8_failed_handle_short_circuits (errMsg : String) (hasConfig : Bool) :
    api_chat_route_guard { llmcore_instance := none, llmcore_init_error := some errMsg } =
      .error (503, "LLM service not available.") ∧
    api_status_core_fields { llmcore_instance := none, llmcore_init_error := some errMsg }
        hasConfig =
      ("error", some errMsg) := by
  exact ⟨rfl, rfl⟩

/-- C9: `get_context_usage_info` is total — every exception of the
underlying core call is caught — and returns `None` when the core instance
is absent, when the session id is falsy (None or empty), when the core
call raises, or when no context details exist; when it returns a dict, the
`usage_percentage` field is the division `tokens_used / max_tokens * 100`
only under the guard `max_tokens > 0`, and `0` otherwise. -/
theorem c9_context_usage_info_total_and_guarded (hasInst : Bool) (sid : Option String)
    (cr : Except PyExn (Option ContextDetails)) :
    (hasInst = false → get_context_usage_info hasInst sid cr = none) ∧
    (isTruthyOpt sid = false → get_context_usage_info hasInst sid cr = none) ∧
    (∀ e, cr = .error e → get_context_usage_info hasInst sid cr = none) ∧
    (cr = .ok none → get_context_usage_info hasInst sid cr = none) ∧
    (∀ u, get_context_usage_info hasInst sid cr = some u →
      u.usage_percentage =
        if u.max_tokens > 0 then (u.tokens_used : ℚ) / (u.max_tokens : ℚ) * 100 else 0) := by
  refine ⟨?_, ?_, ?_, ?_, ?_⟩
  · intro h
    subst h
    rfl
  · intro h
    unfold get_context_usage_info
    rw [h]
    simp
  · intro e he
    subst he
    unfold get_context_usage_info
    by_cases hg : !hasInst || !isTruthyOpt sid <;> simp [hg]
  · intro he
    subst he
    unfold get_context_usage_info
    by_cases hg : !hasInst || !isTruthyOpt sid <;> simp [hg]
  · intro u hu
    unfold get_context_usage_info at hu
    by_cases hg : !hasInst || !isTruthyOpt sid
    · rw [if_pos hg] at hu
      cases hu
    · rw [if_neg hg] at hu
      rcases cr with e | cd
      · cases hu
      rcases cd with _ | cd
      · cases hu
      simp only [Option.some.injEq] at hu
      subst hu
      rfl

/-- Witness for C9 at concrete inputs: each `None` case, and a returned
dict whose percentage is the guarded division (50 of 200 tokens is
25%). -/
theorem c9_witness :
    get_context_usage_info false (some "s") (.ok none) = none ∧
    get_context_usage_info true none (.ok none) = none ∧
    get_context_usage_info true (some "s")
        (.error { cls := "RuntimeError", msg := "x", llmcoreFamily := false }) = none ∧
    get_context_usage_info true (some "s") (.ok none) = none ∧
    get_context_usage_info true (some "s")
        (.ok (some { final_token_count := some 50
                     max_tokens_for_model := some 200
                     rag_documents_used := [] })) =
      some { tokens_used := 50, max_tokens := 200, usage_percentage := 25 } := by
  refine ⟨(c9_context_usage_info_total_and_guarded false (some "s") (.ok none)).1 rfl,
    (c9_context_usage_info_total_and_guarded true none (.ok none)).2.1 rfl,
    (c9_context_usage_info_total_and_guarded true (some "s") _).2.2.1 _ rfl,
    (c9_context_usage_info_total_and_guarded true (some "s") (.ok none)).2.2.2.1 rfl,
    ?_⟩
  unfold get_context_usage_info
  rw [if_neg (by decide)]
  norm_num

/-- C10: `async_to_sync_in_flask` tears down — cancels residual tasks,
shuts down async generators, closes — only the event loop it created
during the call (the fresh tag `nextId`); the closed set grows by exactly
that tag and no other loop's closed status changes; and when a
pre-existing running loop was found, the thread state is returned
untouched with no teardown at all, leaving that loop open. -/
theorem c10_teardown_only_owned_loop {α : Type} (st : ThreadState) (coro : Except PyExn α) :
    (∀ lid, st.running = some lid →
      (async_to_sync_in_flask st coro).final = st ∧
      (async_to_sync_in_flask st coro).teardown = []) ∧
    (st.running = none →
      (async_to_sync_in_flask st coro).teardown =
        [.cancelTasks st.nextId, .shutdownAsyncgens st.nextId, .closeLoop st.nextId] ∧
      (async_to_sync_in_flask st coro).final.closed = st.nextId :: st.closed ∧
      ∀ l, l ≠ st.nextId →
        (l ∈ (async_to_sync_in_flask st coro).final.closed ↔ l ∈ st.closed)) := by
  rcases st with ⟨r, p, c, n⟩
  constructor
  · intro lid h
    simp only at h
    subst h
    exact ⟨rfl, rfl⟩
  · intro h
    simp only at h
    subst h
    refine ⟨rfl, rfl, ?_⟩
    intro l hl
    simp only [async_to_sync_in_flask]
    constructor
    · intro hmem
      rcases List.mem_cons.1 hmem with h1 | h1
      · exact absurd h1 hl
      · exact h1
    · intro hmem
      exact List.mem_cons.2 (Or.inr hmem)

/-- Witness for C10: with a found running loop nothing is torn down; with
no running loop exactly the freshly created loop 0 is torn down and
closed. -/
theorem c10_witness :
    (async_to_sync_in_flask { running := some 5, policy := some 5, closed := [], nextId := 6 }
      (.ok 1 : Except PyExn Nat)).teardown = [] ∧
    (async_to_sync_in_flask { running := none, policy := none, closed := [3], nextId := 4 }
      (.ok 1 : Except PyExn Nat)).final.closed = [4, 3] :=
  ⟨((c10_teardown_only_owned_loop _ _).1 5 rfl).2,
    ((c10_teardown_only_owned_loop _ _).2 rfl).2.1⟩

end LlmchatWeb
